import Mathlib

/-!
Verification of `scripts/linters/python_linter.py`.

The module under verification is a batch orchestration wrapper around three
external static-analysis capabilities (pylint + pycodestyle, pylint --py3k,
and isort).  The embedding below models:

* file paths as `List Char` (or an arbitrary type when the path contents are
  irrelevant);
* each external tool invocation as a call to an oracle function supplied as a
  parameter: the oracle returns the status indicators the Python code reads
  (`pylinter.msg_status`, `pycodestyle_report.get_count()`,
  `incorrectly_sorted`) together with the text the tool writes to the
  redirected standard output during the call;
* the `stdout = python_utils.string_io()` buffer of `_lint_py_files` and
  `_lint_py_files_for_python3_compatibility`, which is created once per
  category run (before the batch loop) and never recreated, as an explicitly
  threaded accumulator: `getvalue()` therefore returns the concatenation of
  everything written since the start of the run;
* returned `summary_messages` lists as `List (List Char)`.

Side effects that only reach the real console (`python_utils.PRINT` calls
outside the redirected region, and the import-order check whose redirect
target is `sys.stdout` itself) do not influence the returned messages and are
not modelled.  Wall-clock elapsed time (`time.time()` differences formatted
with `%.1f`) is not modellable; the formatted elapsed text is taken as an
input parameter and spliced into the success line exactly where the source
formats it.  Run structures additionally record, as instrumentation, the list
of file batches handed to the external tools and the final value of the
manager's `files_to_lint` attribute.
-/

namespace PythonLinter

universe u

variable {α : Type u} {β : Type u}

/-- `_MESSAGE_TYPE_SUCCESS = 'SUCCESS'` (line 48 of the source). -/
def MESSAGE_TYPE_SUCCESS : List Char := "SUCCESS".data

/-- `_MESSAGE_TYPE_FAILED = 'FAILED'` (line 49 of the source). -/
def MESSAGE_TYPE_FAILED : List Char := "FAILED".data

/-- Fuel-indexed worker for `batchSlices`.  The fuel dominates the list
length, so with a positive batch size the recursion mirrors the `while
current_batch_start_index < len(files_to_lint)` loop: each step slices
`files[start : start + bs]` (i.e. `take bs`) and continues on the remainder
(`drop bs`). -/
def batchSlicesAux (bs : Nat) : Nat → List α → List (List α)
  | 0, _ => []
  | _, [] => []
  | fuel + 1, x :: xs => (x :: xs).take bs :: batchSlicesAux bs fuel ((x :: xs).drop bs)

/-- The batches produced by the slicing loop of `_lint_py_files` (lines
180–211) and `_lint_py_files_for_python3_compatibility` (lines 256–284):
`files[start : min (start + bs) n]` for `start = 0, bs, 2*bs, ...`. -/
def batchSlices (bs : Nat) (l : List α) : List (List α) :=
  batchSlicesAux bs l.length l

theorem batchSlicesAux_flatten (bs : Nat) (hbs : 0 < bs) :
    ∀ (fuel : Nat) (l : List α), l.length ≤ fuel →
      (batchSlicesAux bs fuel l).flatten = l := by
  intro fuel
  induction fuel with
  | zero =>
    intro l hl
    rcases l with _ | ⟨x, xs⟩
    · rfl
    · simp at hl
  | succ n ih =>
    intro l hl
    rcases l with _ | ⟨x, xs⟩
    · rfl
    · rw [batchSlicesAux, List.flatten_cons, ih ((x :: xs).drop bs)
        (by simp only [List.length_drop, List.length_cons] at *; omega)]
      exact List.take_append_drop bs (x :: xs)

theorem batchSlices_flatten (bs : Nat) (hbs : 0 < bs) (l : List α) :
    (batchSlices bs l).flatten = l :=
  batchSlicesAux_flatten bs hbs l.length l le_rfl

theorem batchSlicesAux_length (bs : Nat) (hbs : 0 < bs) :
    ∀ (fuel : Nat) (l : List α), l.length ≤ fuel →
      (batchSlicesAux bs fuel l).length = (l.length + bs - 1) / bs := by
  intro fuel
  induction fuel with
  | zero =>
    intro l hl
    rcases l with _ | ⟨x, xs⟩
    · simp [batchSlicesAux, Nat.div_eq_of_lt (by omega : bs - 1 < bs)]
    · simp at hl
  | succ n ih =>
    intro l hl
    rcases l with _ | ⟨x, xs⟩
    · simp [batchSlicesAux, Nat.div_eq_of_lt (by omega : bs - 1 < bs)]
    · rw [batchSlicesAux, List.length_cons,
        ih ((x :: xs).drop bs)
          (by simp only [List.length_drop, List.length_cons] at *; omega)]
      simp only [List.length_drop, List.length_cons]
      rcases Nat.le_total bs (xs.length + 1) with hble | hble
      · have h1 : xs.length + 1 - bs + bs - 1 = xs.length + 1 - 1 := by omega
        have h2 : xs.length + 1 + bs - 1 = (xs.length + 1 - 1) + bs := by omega
        rw [h1, h2, Nat.add_div_right _ hbs, Nat.add_comm]
      · have h1 : xs.length + 1 - bs = 0 := by omega
        have h2 : xs.length + 1 + bs - 1 = xs.length + bs := by omega
        rw [h1, h2, Nat.zero_add, Nat.div_eq_of_lt (by omega : bs - 1 < bs),
          Nat.add_div_right _ hbs, Nat.div_eq_of_lt (by omega : xs.length < bs)]

theorem batchSlices_length (bs : Nat) (hbs : 0 < bs) (l : List α) :
    (batchSlices bs l).length = (l.length + bs - 1) / bs :=
  batchSlicesAux_length bs hbs l.length l le_rfl

theorem batchSlicesAux_mem (bs : Nat) (hbs : 0 < bs) :
    ∀ (fuel : Nat) (l : List α), ∀ b ∈ batchSlicesAux bs fuel l,
      b ≠ [] ∧ b.length ≤ bs := by
  intro fuel
  induction fuel with
  | zero => intro l b hb; cases l <;> simp [batchSlicesAux] at hb
  | succ n ih =>
    intro l b hb
    rcases l with _ | ⟨x, xs⟩
    · simp [batchSlicesAux] at hb
    · rw [batchSlicesAux] at hb
      rcases List.mem_cons.mp hb with hb | hb
      · subst hb
        refine ⟨?_, by rw [List.length_take]; exact Nat.min_le_left _ _⟩
        have : ((x :: xs).take bs).length = min bs (xs.length + 1) := by simp
        intro hnil
        rw [hnil] at this
        simp only [List.length_nil] at this
        omega
      · exact ih _ b hb

theorem batchSlices_mem (bs : Nat) (hbs : 0 < bs) (l : List α) :
    ∀ b ∈ batchSlices bs l, b ≠ [] ∧ b.length ≤ bs :=
  batchSlicesAux_mem bs hbs l.length l

/-- The body of the batch loops of `_lint_py_files` (lines 192–211) and
`_lint_py_files_for_python3_compatibility` (lines 271–284).  `buf` is the
contents of the `stdout` string buffer, which is created once before the loop
and never reset: each batch appends the text it emits (`emit b`), and when the
batch's status indicates failure (`fails b`) the code appends
`stdout.getvalue()` — the whole accumulated buffer — to `summary_messages`. -/
def captureLoop (emit : β → List Char) (fails : β → Bool) :
    List β → List Char → List (List Char)
  | [], _ => []
  | b :: rest, buf =>
    (if fails b then [buf ++ emit b] else []) ++
      captureLoop emit fails rest (buf ++ emit b)

/-- Closed form of the batch loop: the `k`-th batch contributes a summary
message exactly when it fails, and that message is the initial buffer contents
followed by the concatenation of the text emitted by batches `0..k`. -/
theorem captureLoop_eq_filterMap (emit : β → List Char) (fails : β → Bool) :
    ∀ (bs : List β) (buf : List Char),
      captureLoop emit fails bs buf =
        (List.range bs.length).filterMap (fun k =>
          (bs[k]?).bind (fun b =>
            if fails b then
              some (buf ++ ((bs.take (k + 1)).map emit).flatten)
            else none)) := by
  intro bs
  induction bs with
  | nil => intro buf; rfl
  | cons b rest ih =>
    intro buf
    have hcomp :
        ((fun k => ((b :: rest)[k]?).bind (fun x =>
            if fails x then
              some (buf ++ (((b :: rest).take (k + 1)).map emit).flatten)
            else none)) ∘ Nat.succ) =
          (fun k => (rest[k]?).bind (fun x =>
            if fails x then
              some ((buf ++ emit b) ++ ((rest.take (k + 1)).map emit).flatten)
            else none)) := by
      funext k
      simp only [Function.comp_apply, List.getElem?_cons_succ]
      cases hk : rest[k]? with
      | none => rfl
      | some x =>
        simp only [Option.bind_some, List.take_succ_cons, List.map_cons,
          List.flatten_cons, List.append_assoc]
    rw [List.length_cons, List.range_succ_eq_map, List.filterMap_cons,
      List.filterMap_map, hcomp, ← ih (buf ++ emit b)]
    cases hfb : fails b with
    | false => simp [captureLoop, hfb]
    | true => simp [captureLoop, hfb]

/-- One summary message is retained per failing batch. -/
theorem captureLoop_length (emit : β → List Char) (fails : β → Bool) :
    ∀ (bs : List β) (buf : List Char),
      (captureLoop emit fails bs buf).length = (bs.filter fails).length := by
  intro bs
  induction bs with
  | nil => intro buf; rfl
  | cons b rest ih =>
    intro buf
    cases hfb : fails b <;> simp [captureLoop, hfb, ih]

/-- What one batch invocation of the style/convention tools reports back to
`_lint_py_files`: `lint.Run(...).linter.msg_status` and the text pylint wrote
to the redirect target, plus `style_guide.check_files(...).get_count()` and
the text pycodestyle wrote (lines 192–205). -/
structure BatchToolsOutcome where
  pylint_msg_status : Nat
  pylint_output : List Char
  pycodestyle_count : Nat
  pycodestyle_output : List Char

/-- Text written into the shared buffer during one batch of `_lint_py_files`:
pylint's output followed by pycodestyle's output. -/
def batchEmitted (engine : List α → BatchToolsOutcome) (b : List α) : List Char :=
  (engine b).pylint_output ++ (engine b).pycodestyle_output

/-- `pylinter.msg_status != 0 or pycodestyle_report.get_count() != 0`
(line 205). -/
def batchFails (engine : List α → BatchToolsOutcome) (b : List α) : Bool :=
  ((engine b).pylint_msg_status != 0) || ((engine b).pycodestyle_count != 0)

/-- Result of one category run: the returned `summary_messages`, plus
instrumentation recording the file batches handed to the external tools, the
final value of the `are_there_errors` / `any_errors` flag, and the value of
`self.files_to_lint` after the call. -/
structure LintRun (α : Type u) where
  messages : List (List Char)
  invocations : List (List α)
  areThereErrors : Bool
  finalFiles : List α

/-- `'%s    Python linting failed' % _MESSAGE_TYPE_FAILED` (lines 214–215). -/
def python_linting_failed_line : List Char :=
  MESSAGE_TYPE_FAILED ++ "    Python linting failed".data

/-- `'%s   %s Python files linted (%.1f secs)'` (lines 217–218); the formatted
elapsed seconds are the `elapsedText` parameter. -/
def python_linting_success_line (numPyFiles : Nat) (elapsedText : List Char) :
    List Char :=
  MESSAGE_TYPE_SUCCESS ++ "   ".data ++ (Nat.repr numPyFiles).data ++
    " Python files linted (".data ++ elapsedText ++ " secs)".data

/-- `ThirdPartyPythonLintChecksManager._lint_py_files` (lines 157–224).  The
`config_pylint` / `config_pycodestyle` arguments are fixed configuration
absorbed into the `engine` oracle.  `stdout` is created once (line 178), so the
loop threads a single accumulating buffer starting empty.  After the loop, one
verdict line is appended: FAILED if any batch failed, otherwise the SUCCESS
line mentioning `num_py_files = len(files_to_lint)`. -/
def lint_py_files (engine : List α → BatchToolsOutcome)
    (elapsedText : List Char) (files_to_lint : List α) : LintRun α :=
  let bs := batchSlices 50 files_to_lint
  let errs := bs.any (batchFails engine)
  { messages :=
      captureLoop (batchEmitted engine) (batchFails engine) bs [] ++
        [if errs then python_linting_failed_line
         else python_linting_success_line files_to_lint.length elapsedText]
    invocations := bs
    areThereErrors := errs
    finalFiles := files_to_lint }

/-- What one batch invocation of `lint.Run(files + ['--py3k'], exit=False)`
reports back: `.linter.msg_status` and the text written to the redirect
target (lines 271–278). -/
structure Py3BatchOutcome where
  msg_status : Nat
  output : List Char

/-- `python_utils.PRINT('Messages for Python 3 support:')` is executed inside
the redirect (line 274), so this header line goes into the shared buffer
before pylint's output on every batch. -/
def py3_support_header : List Char := "Messages for Python 3 support:\n".data

/-- Text written into the shared buffer during one batch of the Python 3
compatibility check. -/
def py3BatchEmitted (engine : List (List Char) → Py3BatchOutcome)
    (b : List (List Char)) : List Char :=
  py3_support_header ++ (engine b).output

/-- `pylinter_for_python3.msg_status != 0` (line 278). -/
def py3BatchFails (engine : List (List Char) → Py3BatchOutcome)
    (b : List (List Char)) : Bool :=
  (engine b).msg_status != 0

/-- Models `re.match(r'^.*python_utils.*\.py$', file_name)` (lines 240–241)
for file names without newline characters: the name ends in `.py` and the
part before that final `.py` contains `python_utils`, i.e. the name splits as
`a ++ "python_utils" ++ b ++ ".py"`. -/
def python3_exclusion_match (file_name : List Char) : Bool :=
  decide (".py".data <:+ file_name) &&
    decide ("python_utils".data <:+: file_name.take (file_name.length - 3))

/-- `'%s    Python linting for Python 3 compatibility failed'`
(lines 287–289). -/
def python3_failed_line : List Char :=
  MESSAGE_TYPE_FAILED ++ "    Python linting for Python 3 compatibility failed".data

/-- `'%s   %s Python files linted for Python 3 compatibility (%.1f secs)'`
(lines 291–295). -/
def python3_success_line (numPyFiles : Nat) (elapsedText : List Char) :
    List Char :=
  MESSAGE_TYPE_SUCCESS ++ "   ".data ++ (Nat.repr numPyFiles).data ++
    " Python files linted for Python 3 compatibility (".data ++
    elapsedText ++ " secs)".data

/-- `_lint_py_files_for_python3_compatibility` (lines 226–302).  Files
matching the exclusion regex are filtered out first (lines 239–241); if
nothing remains the function returns `[]` without invoking the engine
(lines 243–247).  Otherwise the same batching/capture mechanics as
`_lint_py_files` run over the filtered list, with `num_py_files` equal to the
filtered length. -/
def lint_py_files_for_python3_compatibility
    (engine : List (List Char) → Py3BatchOutcome) (elapsedText : List Char)
    (files_to_lint : List (List Char)) : LintRun (List Char) :=
  let filtered := files_to_lint.filter (fun f => !(python3_exclusion_match f))
  if filtered.isEmpty then
    { messages := []
      invocations := []
      areThereErrors := false
      finalFiles := files_to_lint }
  else
    let bs := batchSlices 50 filtered
    let errs := bs.any (py3BatchFails engine)
    { messages :=
        captureLoop (py3BatchEmitted engine) (py3BatchFails engine) bs [] ++
          [if errs then python3_failed_line
           else python3_success_line filtered.length elapsedText]
      invocations := bs
      areThereErrors := errs
      finalFiles := files_to_lint }

/-- What `isort.SortImports(filepath, check=True, show_diff=True)` reports for
one file: the `incorrectly_sorted` flag the code branches on, and the
diagnostic text isort prints (which line 91 redirects to `sys.stdout`, i.e.
the real console, not a capture buffer). -/
structure IsortOutcome where
  incorrectly_sorted : Bool
  printed_diff : List Char

/-- Result of `_check_import_order`: the returned `summary_messages`, the
files handed (one at a time) to isort, and `self.files_to_lint` after the
call. -/
structure ImportOrderRun (α : Type u) where
  messages : List (List Char)
  invocations : List α
  finalFiles : List α

/-- `'%s   Import order checks failed, file imports should be alphabetized,
see affect files above.' % _MESSAGE_TYPE_FAILED` (lines 105–108). -/
def import_order_failed_line : List Char :=
  MESSAGE_TYPE_FAILED ++
    "   Import order checks failed, file imports should be alphabetized, see affect files above.".data

/-- `'%s   Import order checks passed' % _MESSAGE_TYPE_SUCCESS`
(lines 112–113). -/
def import_order_passed_line : List Char :=
  MESSAGE_TYPE_SUCCESS ++ "   Import order checks passed".data

/-- `PythonLintChecksManager._check_import_order` (lines 80–116): isort is run
per file, `failed` becomes true if any file is incorrectly sorted, and the
single summary message appended is one of the two fixed verdict lines —
isort's per-file diagnostics go to `sys.stdout` and are never put into
`summary_messages`. -/
def check_import_order (isortRun : α → IsortOutcome) (files : List α) :
    ImportOrderRun α :=
  let failed := files.any (fun f => (isortRun f).incorrectly_sorted)
  { messages := [if failed then import_order_failed_line
                 else import_order_passed_line]
    invocations := files
    finalFiles := files }

/-- `PythonLintChecksManager.__init__` (lines 59–68). -/
structure PythonLintChecksManager (α : Type u) where
  files_to_lint : List α
  verbose_mode_enabled : Bool

/-- `py_filepaths` property (lines 70–73). -/
def PythonLintChecksManager.py_filepaths (m : PythonLintChecksManager α) :
    List α :=
  m.files_to_lint

/-- `all_filepaths` property (lines 75–78). -/
def PythonLintChecksManager.all_filepaths (m : PythonLintChecksManager α) :
    List α :=
  m.py_filepaths

/-- Result of `PythonLintChecksManager.perform_all_lint_checks`. -/
structure CustomPerformRun (α : Type u) where
  messages : List (List Char)
  invocations : List α
  finalFiles : List α

/-- `PythonLintChecksManager.perform_all_lint_checks` (lines 118–131): with no
filepaths it prints an informational line to the console and returns `[]`;
otherwise it returns `self._check_import_order()`. -/
def PythonLintChecksManager.perform_all_lint_checks
    (m : PythonLintChecksManager α) (isortRun : α → IsortOutcome) :
    CustomPerformRun α :=
  if m.all_filepaths.isEmpty then
    { messages := [], invocations := [], finalFiles := m.files_to_lint }
  else
    let r := check_import_order isortRun m.py_filepaths
    { messages := r.messages
      invocations := r.invocations
      finalFiles := m.files_to_lint }

/-- `ThirdPartyPythonLintChecksManager.__init__` (lines 141–150).  File paths
are `List Char` because the Python 3 compatibility check inspects their
text. -/
structure ThirdPartyPythonLintChecksManager where
  files_to_lint : List (List Char)
  verbose_mode_enabled : Bool

/-- `all_filepaths` property (lines 152–155). -/
def ThirdPartyPythonLintChecksManager.all_filepaths
    (m : ThirdPartyPythonLintChecksManager) : List (List Char) :=
  m.files_to_lint

/-- Result of `ThirdPartyPythonLintChecksManager.perform_all_lint_checks`. -/
structure ThirdPartyPerformRun where
  messages : List (List Char)
  invocations : List (List (List Char))
  finalFiles : List (List Char)

/-- `ThirdPartyPythonLintChecksManager.perform_all_lint_checks` (lines
304–328): with no filepaths it prints an informational line and returns `[]`;
otherwise it extends the messages of `_lint_py_files` with those of
`_lint_py_files_for_python3_compatibility`.  The `.pylintrc` / `tox.ini`
config paths are fixed configuration absorbed into the `engine` oracle. -/
def ThirdPartyPythonLintChecksManager.perform_all_lint_checks
    (m : ThirdPartyPythonLintChecksManager)
    (engine : List (List Char) → BatchToolsOutcome)
    (py3engine : List (List Char) → Py3BatchOutcome)
    (elapsedText1 elapsedText2 : List Char) : ThirdPartyPerformRun :=
  if m.all_filepaths.isEmpty then
    { messages := [], invocations := [], finalFiles := m.files_to_lint }
  else
    let r1 := lint_py_files engine elapsedText1 m.all_filepaths
    let r2 := lint_py_files_for_python3_compatibility py3engine elapsedText2
      m.all_filepaths
    { messages := r1.messages ++ r2.messages
      invocations := r1.invocations ++ r2.invocations
      finalFiles := m.files_to_lint }

/-- Sample oracle: both tools always clean and silent (paths are `Nat`). -/
def cleanTools : List Nat → BatchToolsOutcome :=
  fun _ => ⟨0, [], 0, []⟩

/-- Sample oracle: both tools always clean and silent (paths are text). -/
def cleanToolsText : List (List Char) → BatchToolsOutcome :=
  fun _ => ⟨0, [], 0, []⟩

/-- Sample oracle: the compatibility checker is always clean and silent. -/
def cleanPy3 : List (List Char) → Py3BatchOutcome :=
  fun _ => ⟨0, []⟩

/-- Sample oracle: isort reports every file as already sorted. -/
def cleanIsort : Nat → IsortOutcome :=
  fun _ => ⟨false, []⟩

/-- Sample oracle exhibiting the shared capture buffer: a full batch of 50
files is clean but prints `A`; any other batch fails with status 1 and prints
`B`. -/
def leakEngine : List Nat → BatchToolsOutcome :=
  fun b => if b.length = 50 then ⟨0, "A".data, 0, []⟩ else ⟨1, "B".data, 0, []⟩

/-- Sample oracle: file `1` is incorrectly sorted with a diagnostic; every
other file is already sorted. -/
def isortWithDiag : Nat → IsortOutcome :=
  fun f => if f = 1 then ⟨true, "UNSORTED DIAG 1".data⟩ else ⟨false, []⟩

theorem append_python_utils_last (a w : List Char) (x : Char)
    (h : a ++ "python_utils".data = w ++ [x]) : x = 's' := by
  have e : ("python_utils".data : List Char) = "python_util".data ++ ['s'] := by
    decide
  rw [e, ← List.append_assoc] at h
  have h2 := (List.append_inj' h rfl).2
  have h3 : ('s' : Char) = x := by simpa using h2
  exact h3.symm

/-- The exclusion regex `^.*python_utils.*\.py$` accepts exactly the names
that contain `python_utils` and end in `.py`: since `python_utils` ends in
`s`, no occurrence of it can overlap the final `.py`. -/
theorem python3_exclusion_match_iff (f : List Char) :
    python3_exclusion_match f = true ↔
      ("python_utils".data <:+: f ∧ ".py".data <:+ f) := by
  unfold python3_exclusion_match
  simp only [Bool.and_eq_true, decide_eq_true_eq]
  constructor
  · rintro ⟨hsuf, hinf⟩
    exact ⟨ List.IsInfix.trans hinf
      ( List.IsPrefix.isInfix (List.take_prefix _ _)), hsuf⟩
  · rintro ⟨hinf, hsuf⟩
    refine ⟨hsuf, ?_⟩
    obtain ⟨u, hu⟩ := hsuf
    obtain ⟨a, b, hab⟩ := hinf
    have htake : f.take (f.length - 3) = u := by
      have h3 : f.length - 3 = u.length := by
        rw [← hu, List.length_append]
        simp
      rw [h3, ← hu, List.take_left]
    rw [htake]
    rcases b with _ | ⟨c, _ | ⟨d, _ | ⟨e', rest⟩⟩⟩
    · exfalso
      rw [List.append_nil, ← hu] at hab
      have h5 : u ++ (".py".data : List Char) = (u ++ ['.', 'p']) ++ ['y'] := by
        simp
      exact absurd (append_python_utils_last a (u ++ ['.', 'p']) 'y'
        (hab.trans h5)) (by decide)
    · exfalso
      rw [← hu] at hab
      have h5 : u ++ (".py".data : List Char) = (u ++ ['.', 'p']) ++ ['y'] := by
        simp
      have h6 := (List.append_inj' (hab.trans h5) rfl).1
      have h7 : u ++ (['.', 'p'] : List Char) = (u ++ ['.']) ++ ['p'] := by
        simp
      exact absurd (append_python_utils_last a (u ++ ['.']) 'p' (h6.trans h7))
        (by decide)
    · exfalso
      rw [← hu] at hab
      have h5 : u ++ (".py".data : List Char) = (u ++ ['.']) ++ ['p', 'y'] := by
        simp
      have h6 := (List.append_inj' (hab.trans h5) rfl).1
      exact absurd (append_python_utils_last a u '.' h6) (by decide)
    · rw [← hu] at hab
      have hab2 : ((a ++ "python_utils".data) ++
          (c :: d :: e' :: rest).take ((c :: d :: e' :: rest).length - 3)) ++
          (c :: d :: e' :: rest).drop ((c :: d :: e' :: rest).length - 3) =
            u ++ ".py".data := by
        rw [List.append_assoc (a ++ "python_utils".data),
          List.take_append_drop]
        exact hab
      have hL : (c :: d :: e' :: rest).length = rest.length + 3 := by
        simp only [List.length_cons]
      have hdlen : ((c :: d :: e' :: rest).drop
          ((c :: d :: e' :: rest).length - 3)).length =
            (".py".data : List Char).length := by
        rw [List.length_drop, hL]
        have h9 : rest.length + 3 - (rest.length + 3 - 3) = 3 := by omega
        rw [h9]
        rfl
      have h4 := (List.append_inj' hab2 hdlen).1
      exact ⟨a, (c :: d :: e' :: rest).take ((c :: d :: e' :: rest).length - 3),
        h4⟩

/-- The file batches handed to the Python 3 compatibility engine concatenate
to exactly the filtered file list. -/
theorem py3_invocations_flatten (engine : List (List Char) → Py3BatchOutcome)
    (elapsedText : List Char) (files : List (List Char)) :
    ((lint_py_files_for_python3_compatibility engine elapsedText
        files).invocations).flatten =
      files.filter (fun f => !(python3_exclusion_match f)) := by
  unfold lint_py_files_for_python3_compatibility
  by_cases h :
      (files.filter (fun f => !(python3_exclusion_match f))).isEmpty = true
  · rw [if_pos h]
    rw [List.isEmpty_iff.mp h]
    rfl
  · rw [if_neg h]
    exact batchSlices_flatten 50 (by omega) _

/-- One verdict line is appended per `_lint_py_files` run, after the loop
messages. -/
theorem lint_py_files_messages_shape {γ : Type u}
    (engine : List γ → BatchToolsOutcome) (elapsedText : List Char)
    (files : List γ) :
    (lint_py_files engine elapsedText files).messages =
      captureLoop (batchEmitted engine) (batchFails engine)
          (batchSlices 50 files) [] ++
        [if (batchSlices 50 files).any (batchFails engine) then
          python_linting_failed_line
         else python_linting_success_line files.length elapsedText] :=
  rfl

/-- C2: for every file list processed by `_lint_py_files` (batch size 50, so
in particular every non-empty one), the batches handed to the external tools
are contiguous, non-overlapping slices in the original order whose
concatenation equals the input list — each batch is non-empty with at most 50
files — and the number of external-tool invocations equals
`ceil(len(files) / 50) = (len(files) + 50 - 1) / 50`. -/
theorem lint_py_files_batch_partition (γ : Type u)
    (engine : List γ → BatchToolsOutcome) (elapsedText : List Char)
    (files : List γ) :
    ((lint_py_files engine elapsedText files).invocations).flatten = files
  ∧ (∀ b ∈ (lint_py_files engine elapsedText files).invocations,
      b ≠ [] ∧ b.length ≤ 50)
  ∧ ((lint_py_files engine elapsedText files).invocations).length =
      (files.length + 50 - 1) / 50 :=
  ⟨batchSlices_flatten 50 (by omega) files,
   batchSlices_mem 50 (by omega) files,
   batchSlices_length 50 (by omega) files⟩

/-- C3: the category's overall result is passed (the `are_there_errors` flag
stays false, and the appended verdict line is the SUCCESS one) if and only if
every batch reports a zero pylint status and a zero pycodestyle count; and
regardless of any batch's status, every batch is invoked — the invocation
trace is always the full batch list, so a failing batch never prevents the
remaining batches from running. -/
theorem lint_py_files_failure_policy (γ : Type u)
    (engine : List γ → BatchToolsOutcome) (elapsedText : List Char)
    (files : List γ) :
    ((lint_py_files engine elapsedText files).areThereErrors = false ↔
      ∀ b ∈ batchSlices 50 files,
        (engine b).pylint_msg_status = 0 ∧ (engine b).pycodestyle_count = 0)
  ∧ (lint_py_files engine elapsedText files).invocations = batchSlices 50 files
  ∧ (lint_py_files engine elapsedText files).messages.getLast? =
      some (if (lint_py_files engine elapsedText files).areThereErrors then
        python_linting_failed_line
       else python_linting_success_line files.length elapsedText) := by
  refine ⟨?_, rfl, ?_⟩
  · show (batchSlices 50 files).any (batchFails engine) = false ↔ _
    rw [List.any_eq_false]
    constructor
    · intro h b hb
      have h2 := h b hb
      simp only [batchFails, Bool.or_eq_true, bne_iff_ne, ne_eq, not_or,
        not_not] at h2
      exact h2
    · intro h b hb
      simp only [batchFails, Bool.or_eq_true, bne_iff_ne, ne_eq, not_or,
        not_not]
      exact h b hb
  · rw [lint_py_files_messages_shape, List.getLast?_concat]
    rfl

/-- C7: if the Python 3 compatibility file list is empty after filtering, the
check is skipped — the returned summary message list is empty (no trivial
SUCCESS verdict) and the compatibility engine is never invoked. -/
theorem python3_skip_when_filtered_empty
    (engine : List (List Char) → Py3BatchOutcome) (elapsedText : List Char)
    (files : List (List Char))
    (h : files.filter (fun f => !(python3_exclusion_match f)) = []) :
    (lint_py_files_for_python3_compatibility engine elapsedText
      files).messages = []
  ∧ (lint_py_files_for_python3_compatibility engine elapsedText
      files).invocations = [] := by
  unfold lint_py_files_for_python3_compatibility
  rw [if_pos (by rw [h]; rfl : (files.filter
    (fun f => !(python3_exclusion_match f))).isEmpty = true)]
  exact ⟨rfl, rfl⟩

theorem python3_skip_when_filtered_empty_witness :
    (lint_py_files_for_python3_compatibility cleanPy3 []
        ["utils/python_utils.py".data]).messages = []
  ∧ (lint_py_files_for_python3_compatibility cleanPy3 []
        ["utils/python_utils.py".data]).invocations = [] :=
  python3_skip_when_filtered_empty cleanPy3 [] ["utils/python_utils.py".data]
    (by decide)

/-- C9: no lint operation mutates its input — after each of the four
operations, the recorded final `files_to_lint` equals the list supplied as
input (respectively, at manager construction): all batching uses
non-mutating slicing. -/
theorem lint_checks_preserve_files_to_lint (γ : Type u)
    (engine : List γ → BatchToolsOutcome)
    (engineText : List (List Char) → BatchToolsOutcome)
    (py3engine : List (List Char) → Py3BatchOutcome)
    (isortRun : γ → IsortOutcome) (e1 e2 : List Char)
    (files : List γ) (filesText : List (List Char))
    (m : PythonLintChecksManager γ) (mt : ThirdPartyPythonLintChecksManager) :
    (lint_py_files engine e1 files).finalFiles = files
  ∧ (lint_py_files_for_python3_compatibility py3engine e2
      filesText).finalFiles = filesText
  ∧ (check_import_order isortRun files).finalFiles = files
  ∧ (m.perform_all_lint_checks isortRun).finalFiles = m.files_to_lint
  ∧ (mt.perform_all_lint_checks engineText py3engine e1 e2).finalFiles =
      mt.files_to_lint := by
  refine ⟨rfl, ?_, rfl, ?_, ?_⟩
  · unfold lint_py_files_for_python3_compatibility
    dsimp only
    split <;> rfl
  · unfold PythonLintChecksManager.perform_all_lint_checks
    dsimp only
    split <;> rfl
  · unfold ThirdPartyPythonLintChecksManager.perform_all_lint_checks
    dsimp only
    split <;> rfl

/-- C6: every file matching the exclusion pattern — a path containing
`python_utils` and ending in `.py` — is removed before batching, and only the
remaining files are ever handed to the compatibility engine; in particular,
with one matching file and two non-matching files, exactly 2 files reach the
engine. -/
theorem python3_exclusion_filtering
    (engine : List (List Char) → Py3BatchOutcome) (elapsedText : List Char)
    (files : List (List Char)) :
    ((lint_py_files_for_python3_compatibility engine elapsedText
        files).invocations).flatten =
      files.filter (fun f => !(python3_exclusion_match f))
  ∧ (∀ f : List Char, python3_exclusion_match f = true ↔
      ("python_utils".data <:+: f ∧ ".py".data <:+ f))
  ∧ (((lint_py_files_for_python3_compatibility engine elapsedText
        ["a.py".data, "core/python_utils.py".data,
          "b.py".data]).invocations).flatten).length = 2 := by
  refine ⟨py3_invocations_flatten engine elapsedText files,
    python3_exclusion_match_iff, ?_⟩
  rw [py3_invocations_flatten engine elapsedText
    ["a.py".data, "core/python_utils.py".data, "b.py".data]]
  decide

set_option maxRecDepth 8000 in
/-- C5 counterexample: three files of which file `1` is not sorted and has a
non-empty diagnostic.  The overall check fails, but the returned message is
the fixed failure line and the failing file's diagnostic text appears in no
returned message — contradicting the claim that the message includes the
failing file's per-file diagnostic. -/
theorem import_order_message_lacks_diag :
    ((check_import_order isortWithDiag [0, 1, 2]).messages.any
        (fun m => decide ((isortWithDiag 1).printed_diff <:+: m))) = false
  ∧ (check_import_order isortWithDiag [0, 1, 2]).messages =
      [import_order_failed_line]
  ∧ (isortWithDiag 1).incorrectly_sorted = true
  ∧ (isortWithDiag 1).printed_diff ≠ [] := by decide

/-- C5 (amended): the import-order result is the passed verdict iff every
file reports already sorted, and the fixed failure line iff some file is not
sorted — in the failure case the message is exactly that fixed line, so the
per-file diagnostics (printed to the console) are not part of the returned
message. -/
theorem check_import_order_aggregate (γ : Type u)
    (isortRun : γ → IsortOutcome) (files : List γ) :
    ((check_import_order isortRun files).messages =
        [import_order_passed_line] ↔
      ∀ f ∈ files, (isortRun f).incorrectly_sorted = false)
  ∧ ((check_import_order isortRun files).messages =
        [import_order_failed_line] ↔
      ∃ f ∈ files, (isortRun f).incorrectly_sorted = true) := by
  have hne : import_order_passed_line ≠ import_order_failed_line := by decide
  unfold check_import_order
  dsimp only
  cases h : files.any (fun f => (isortRun f).incorrectly_sorted) with
  | true =>
    rw [if_pos rfl]
    rw [List.any_eq_true] at h
    obtain ⟨f0, hf0, hf0t⟩ := h
    constructor
    · refine iff_of_false ?_ ?_
      · intro hbad
        injection hbad with h1
        exact hne h1.symm
      · intro hall
        have h2 := hall f0 hf0
        rw [hf0t] at h2
        exact Bool.noConfusion h2
    · exact iff_of_true rfl ⟨f0, hf0, hf0t⟩
  | false =>
    rw [if_neg (by simp : ¬false = true)]
    rw [List.any_eq_false] at h
    constructor
    · refine iff_of_true rfl ?_
      intro f hf
      have h2 := h f hf
      simpa using h2
    · refine iff_of_false ?_ ?_
      · intro hbad
        injection hbad with h1
        exact hne h1
      · rintro ⟨f0, hf0, hf0t⟩
        exact (h f0 hf0) hf0t

/-- C4 counterexample: with an empty file list, both managers return an
*empty* summary list — not a single-element one — contradicting the claim
that a single-element summary is returned. -/
theorem perform_all_empty_not_single :
    ((PythonLintChecksManager.mk ([] : List Nat)
        false).perform_all_lint_checks cleanIsort).messages = []
  ∧ ((PythonLintChecksManager.mk ([] : List Nat)
        false).perform_all_lint_checks cleanIsort).messages.length ≠ 1
  ∧ ((ThirdPartyPythonLintChecksManager.mk []
        false).perform_all_lint_checks cleanToolsText cleanPy3 []
        []).messages = []
  ∧ ((ThirdPartyPythonLintChecksManager.mk []
        false).perform_all_lint_checks cleanToolsText cleanPy3 []
        []).messages.length ≠ 1 := by decide

/-- C4 (amended): when the supplied file list is empty,
`perform_all_lint_checks` of either manager returns an empty summary list
(the `no Python files to lint` notice goes to the console, not into the
returned messages) and invokes no external engine. -/
theorem perform_all_lint_checks_empty (γ : Type u)
    (isortRun : γ → IsortOutcome)
    (engine : List (List Char) → BatchToolsOutcome)
    (py3engine : List (List Char) → Py3BatchOutcome)
    (e1 e2 : List Char) (verbose verboseT : Bool) :
    ((PythonLintChecksManager.mk ([] : List γ)
        verbose).perform_all_lint_checks isortRun).messages = []
  ∧ ((PythonLintChecksManager.mk ([] : List γ)
        verbose).perform_all_lint_checks isortRun).invocations = []
  ∧ ((ThirdPartyPythonLintChecksManager.mk []
        verboseT).perform_all_lint_checks engine py3engine e1 e2).messages = []
  ∧ ((ThirdPartyPythonLintChecksManager.mk []
        verboseT).perform_all_lint_checks engine py3engine e1
        e2).invocations = [] :=
  ⟨rfl, rfl, rfl, rfl⟩

/-- C1 counterexample: with 51 files, batch 1 (the first 50 files) is clean
but emits `A`; batch 2 (`[50]`) fails and emits `B`.  The summary message
recorded for the failing batch 2 is `AB`: it contains batch 1's captured
text and is not the text emitted during batch 2 alone — the capture buffer
is shared across batches. -/
theorem lint_py_files_capture_not_isolated :
    (lint_py_files leakEngine [] (List.range 51)).messages.head? =
      some (batchEmitted leakEngine (List.range 50) ++
        batchEmitted leakEngine [50])
  ∧ batchFails leakEngine (List.range 50) = false
  ∧ batchFails leakEngine [50] = true
  ∧ batchEmitted leakEngine (List.range 50) ≠ []
  ∧ (batchEmitted leakEngine (List.range 50) <:+:
      (lint_py_files leakEngine [] (List.range 51)).messages.headD [])
  ∧ (lint_py_files leakEngine [] (List.range 51)).messages.head? ≠
      some (batchEmitted leakEngine [50]) := by decide

/-- C1 (amended): the `stdout` buffer of `_lint_py_files` is created once per
run and shared by all batches, so the message retained for the `k`-th batch
(retained exactly when that batch fails) is the concatenation of the text
emitted by batches `0..k` — not the text of batch `k` alone — followed by
the single appended verdict line. -/
theorem lint_py_files_messages_cumulative (γ : Type u)
    (engine : List γ → BatchToolsOutcome) (elapsedText : List Char)
    (files : List γ) :
    (lint_py_files engine elapsedText files).messages =
      (List.range (batchSlices 50 files).length).filterMap (fun k =>
        ((batchSlices 50 files)[k]?).bind (fun b =>
          if batchFails engine b then
            some ((((batchSlices 50 files).take (k + 1)).map
              (batchEmitted engine)).flatten)
          else none)) ++
      [if (batchSlices 50 files).any (batchFails engine) then
        python_linting_failed_line
       else python_linting_success_line files.length elapsedText] := by
  have hfg : (fun k => ((batchSlices 50 files)[k]?).bind (fun b =>
        if batchFails engine b then
          some (([] : List Char) ++ (((batchSlices 50 files).take
            (k + 1)).map (batchEmitted engine)).flatten)
        else none)) =
      (fun k => ((batchSlices 50 files)[k]?).bind (fun b =>
        if batchFails engine b then
          some ((((batchSlices 50 files).take (k + 1)).map
            (batchEmitted engine)).flatten)
        else none)) := by
    funext k
    cases hk : (batchSlices 50 files)[k]? <;> simp [hk]
  rw [lint_py_files_messages_shape, captureLoop_eq_filterMap, hfg]

/-- C8 counterexample: batch 1 reports a zero status from both tools, yet its
captured text appears in the returned summary messages — inside the failing
batch 2's message — because the capture buffer accumulates across batches. -/
theorem clean_batch_output_in_returned_messages :
    batchFails leakEngine (List.range 50) = false
  ∧ batchEmitted leakEngine (List.range 50) ≠ []
  ∧ ((lint_py_files leakEngine [] (List.range 51)).messages.any
      (fun m => decide (batchEmitted leakEngine (List.range 50) <:+: m))) =
        true := by decide

/-- C8 (amended): a summary message is appended to the result exactly once
per failing batch — a batch fails exactly when the convention linter's status
or the style checker's violation count is non-zero — and when every batch is
clean the run returns only the SUCCESS verdict, with no captured text;
however, since the capture buffer is shared, a clean batch's captured text
can still appear inside a later failing batch's message. -/
theorem lint_py_files_retention (γ : Type u)
    (engine : List γ → BatchToolsOutcome) (elapsedText : List Char)
    (files : List γ) :
    ((lint_py_files engine elapsedText files).messages.length =
      ((batchSlices 50 files).filter (batchFails engine)).length + 1)
  ∧ (∀ b, batchFails engine b = true ↔
      ((engine b).pylint_msg_status ≠ 0 ∨ (engine b).pycodestyle_count ≠ 0))
  ∧ (((batchSlices 50 files).all (fun b => !(batchFails engine b))) = true →
      (lint_py_files engine elapsedText files).messages =
        [python_linting_success_line files.length elapsedText]) := by
  refine ⟨?_, ?_, ?_⟩
  · rw [lint_py_files_messages_shape, List.length_append, captureLoop_length]
    rfl
  · intro b
    simp [batchFails, bne_iff_ne]
  · intro hall
    have hany : (batchSlices 50 files).any (batchFails engine) = false := by
      rw [List.any_eq_false]
      intro b hb
      have h2 := List.all_eq_true.mp hall b hb
      simp only [Bool.not_eq_eq_eq_not, Bool.not_true] at h2
      simp [h2]
    have hfilter : (batchSlices 50 files).filter (batchFails engine) = [] := by
      rw [List.filter_eq_nil_iff]
      exact List.any_eq_false.mp hany
    have hloop : captureLoop (batchEmitted engine) (batchFails engine)
        (batchSlices 50 files) [] = [] := by
      have hl := captureLoop_length (batchEmitted engine) (batchFails engine)
        (batchSlices 50 files) []
      rw [hfilter] at hl
      exact List.length_eq_zero.mp hl
    rw [lint_py_files_messages_shape, hloop, hany]
    simp

theorem lint_py_files_retention_witness :
    ((lint_py_files cleanTools [] [0]).messages.length =
      ((batchSlices 50 [0]).filter (batchFails cleanTools)).length + 1)
  ∧ (lint_py_files cleanTools [] [0]).messages =
      [python_linting_success_line 1 []] :=
  ⟨(lint_py_files_retention Nat cleanTools [] [0]).1,
   (lint_py_files_retention Nat cleanTools [] [0]).2.2 (by decide)⟩

/-- A message begins with one of the two verdict markers. -/
def startsWithVerdict (v : List Char) : Prop :=
  MESSAGE_TYPE_SUCCESS.isPrefixOf v = true ∨
    MESSAGE_TYPE_FAILED.isPrefixOf v = true

theorem startsWithVerdict_py_success (n : Nat) (e : List Char) :
    startsWithVerdict (python_linting_success_line n e) :=
  Or.inl (List.isPrefixOf_iff_prefix.mpr (by
    unfold python_linting_success_line
    simp only [List.append_assoc]
    exact List.prefix_append _ _))

theorem startsWithVerdict_py_failed :
    startsWithVerdict python_linting_failed_line :=
  Or.inr (List.isPrefixOf_iff_prefix.mpr (List.prefix_append _ _))

theorem startsWithVerdict_py3_success (n : Nat) (e : List Char) :
    startsWithVerdict (python3_success_line n e) :=
  Or.inl (List.isPrefixOf_iff_prefix.mpr (by
    unfold python3_success_line
    simp only [List.append_assoc]
    exact List.prefix_append _ _))

theorem startsWithVerdict_py3_failed :
    startsWithVerdict python3_failed_line :=
  Or.inr (List.isPrefixOf_iff_prefix.mpr (List.prefix_append _ _))

theorem startsWithVerdict_import_passed :
    startsWithVerdict import_order_passed_line :=
  Or.inl (List.isPrefixOf_iff_prefix.mpr (List.prefix_append _ _))

theorem startsWithVerdict_import_failed :
    startsWithVerdict import_order_failed_line :=
  Or.inr (List.isPrefixOf_iff_prefix.mpr (List.prefix_append _ _))

/-- Shape of the Python 3 compatibility messages when the filtered list is
non-empty: the loop captures followed by one verdict line. -/
theorem py3_messages_shape (engine : List (List Char) → Py3BatchOutcome)
    (elapsedText : List Char) (files : List (List Char))
    (h : files.filter (fun f => !(python3_exclusion_match f)) ≠ []) :
    (lint_py_files_for_python3_compatibility engine elapsedText
        files).messages =
      captureLoop (py3BatchEmitted engine) (py3BatchFails engine)
          (batchSlices 50
            (files.filter (fun f => !(python3_exclusion_match f)))) [] ++
        [if (batchSlices 50
              (files.filter (fun f => !(python3_exclusion_match f)))).any
              (py3BatchFails engine) then
          python3_failed_line
         else python3_success_line
          (files.filter (fun f => !(python3_exclusion_match f))).length
          elapsedText] := by
  unfold lint_py_files_for_python3_compatibility
  rw [if_neg (fun hc => h (List.isEmpty_iff.mp hc))]

/-- C10: every style/convention run and every import-order run — and every
Python 3 compatibility run whose filtered list is non-empty — returns a
non-empty summary message list whose last element begins with `SUCCESS` or
`FAILED`, and exactly one verdict line is appended per run: the message count
equals the number of retained batch captures plus one (the import-order run
always returns exactly the one verdict line). -/
theorem checker_runs_end_with_verdict (γ : Type u) :
    (∀ (engine : List γ → BatchToolsOutcome) (e : List Char)
        (files : List γ),
      (lint_py_files engine e files).messages ≠ []
      ∧ startsWithVerdict ((lint_py_files engine e files).messages.getLastD [])
      ∧ (lint_py_files engine e files).messages.length =
          ((batchSlices 50 files).filter (batchFails engine)).length + 1)
  ∧ (∀ (py3engine : List (List Char) → Py3BatchOutcome) (e : List Char)
        (files : List (List Char)),
      files.filter (fun f => !(python3_exclusion_match f)) ≠ [] →
      (lint_py_files_for_python3_compatibility py3engine e files).messages ≠ []
      ∧ startsWithVerdict ((lint_py_files_for_python3_compatibility py3engine e
          files).messages.getLastD [])
      ∧ (lint_py_files_for_python3_compatibility py3engine e
          files).messages.length =
          ((batchSlices 50
              (files.filter (fun f => !(python3_exclusion_match f)))).filter
              (py3BatchFails py3engine)).length + 1)
  ∧ (∀ (isortRun : γ → IsortOutcome) (files : List γ),
      (check_import_order isortRun files).messages.length = 1
      ∧ startsWithVerdict
          ((check_import_order isortRun files).messages.getLastD [])) := by
  refine ⟨?_, ?_, ?_⟩
  · intro engine e files
    rw [lint_py_files_messages_shape]
    refine ⟨by simp, ?_, ?_⟩
    · rw [List.getLastD_concat]
      cases h : (batchSlices 50 files).any (batchFails engine) with
      | true => rw [if_pos rfl]; exact startsWithVerdict_py_failed
      | false =>
        rw [if_neg (by simp : ¬false = true)]
        exact startsWithVerdict_py_success files.length e
    · rw [List.length_append, captureLoop_length]
      rfl
  · intro py3engine e files h
    rw [py3_messages_shape py3engine e files h]
    refine ⟨by simp, ?_, ?_⟩
    · rw [List.getLastD_concat]
      cases h2 : (batchSlices 50
          (files.filter (fun f => !(python3_exclusion_match f)))).any
          (py3BatchFails py3engine) with
      | true => rw [if_pos rfl]; exact startsWithVerdict_py3_failed
      | false =>
        rw [if_neg (by simp : ¬false = true)]
        exact startsWithVerdict_py3_success _ e
    · rw [List.length_append, captureLoop_length]
      rfl
  · intro isortRun files
    refine ⟨rfl, ?_⟩
    show startsWithVerdict ((check_import_order isortRun files).messages.getLastD [])
    unfold check_import_order
    dsimp only
    cases h : files.any (fun f => (isortRun f).incorrectly_sorted) with
    | true =>
      rw [if_pos rfl]
      exact startsWithVerdict_import_failed
    | false =>
      rw [if_neg (by simp : ¬false = true)]
      exact startsWithVerdict_import_passed

theorem checker_runs_end_with_verdict_witness :
    (lint_py_files_for_python3_compatibility cleanPy3 []
        ["a.py".data]).messages ≠ []
  ∧ startsWithVerdict ((lint_py_files_for_python3_compatibility cleanPy3 []
      ["a.py".data]).messages.getLastD [])
  ∧ (lint_py_files_for_python3_compatibility cleanPy3 []
      ["a.py".data]).messages.length =
      ((batchSlices 50
          (["a.py".data].filter (fun f => !(python3_exclusion_match f)))).filter
          (py3BatchFails cleanPy3)).length + 1 :=
  (checker_runs_end_with_verdict Nat).2.1 cleanPy3 [] ["a.py".data] (by decide)

end PythonLinter
